import Mathlib

/-! The token lifecycle manager of blastboom-webservice.

A shallow embedding of `apis/authentication.go` (the `TokenManager`, and the
authorization-code exchange it caches), of the callback handler of
`v1/login.go`, and of the search and player handlers of `v1/searchSong.go`
and `v1/playerInterface.go` with the API calls they make, followed by
theorems about them.

Modelling conventions.

* A `time.Time` is an instant counted in nanoseconds from Go's zero `Time`
  (an `Int`); `Before` is `<` and `Add` is exact addition of a duration.
* A `time.Duration` is a signed 64-bit count of nanoseconds; the product
  `time.Duration(n) * time.Second` wraps modulo `2^64` as in Go.
* Go's `int` is taken to be 64 bits wide; `int32` is a bounded subtype.
* Every `time.Now()` call site receives its clock reading as an argument.
* The mutex is not modelled: each operation runs while it holds the lock, so
  its body is one sequential state transformer on the two cached fields.
* Code that is handed in from outside (the refresh closure, the HTTP client)
  is a transformer of an arbitrary world state `σ`, disjoint from the manager.
* A handler yields the list of its `ctx.JSON` calls, in order.
* `fmt.Print*` output is not modelled.
-/

namespace api

/-! ## Time -/

/-- An instant, in nanoseconds since Go's zero `time.Time`. -/
abbrev Time := Int

/-- Go's `time.Duration`: a signed 64-bit nanosecond count (kept as an `Int`
that operations bring back into range with `wrapInt64`). -/
abbrev Duration := Int

/-- Two's-complement reduction of an integer to the signed 64-bit range. -/
def wrapInt64 (x : Int) : Int := (x + 2 ^ 63) % 2 ^ 64 - 2 ^ 63

/-- The constant `time.Second`, in nanoseconds. -/
def Second : Duration := 1000000000

/-- The expression `time.Duration(expiresIn) * time.Second`: an `int64`
multiplication, which wraps. -/
def secondsDuration (expiresIn : Int) : Duration := wrapInt64 (wrapInt64 expiresIn * Second)

/-- The method `Time.Before`. -/
def Before (t u : Time) : Bool := decide (t < u)

/-- The method `Time.Add`. -/
def Add (t : Time) (d : Duration) : Time := t + d

/-! ## Errors -/

/-- A Go `error` value: either a plain message, or an error made by
`fmt.Errorf` with the `%w` verb, which carries its own formatted message and
the error it wraps. -/
inductive GoError where
  | errorString (s : String)
  | wrapError (msg : String) (err : GoError)
  deriving DecidableEq, Repr

/-- The method `Error()`: the message of an error. -/
def GoError.Error : GoError → String
  | .errorString s => s
  | .wrapError msg _ => msg

/-- The function `errors.Unwrap`. -/
def GoError.Unwrap : GoError → Option GoError
  | .errorString _ => none
  | .wrapError _ err => some err

/-- The call `fmt.Errorf(head + "%w", err)`. -/
def ErrorfW (head : String) (err : GoError) : GoError :=
  .wrapError (head ++ err.Error) err

/-- The call `fmt.Errorf(head + "%s", body)`. -/
def ErrorfS (head : String) (body : String) : GoError :=
  .errorString (head ++ body)

/-! ## The token manager -/

/-- The struct `TokenManager` (its mutex left out). -/
structure TokenManager where
  AccessToken : String
  ExpiresAt : Time
  deriving DecidableEq, Repr

/-- The constructor `NewTokenManager`: the zero value of the struct. -/
def NewTokenManager : TokenManager := { AccessToken := "", ExpiresAt := 0 }

/-- The method `SetToken`, with `now` the reading of its `time.Now()`. -/
def SetToken (tm : TokenManager) (now : Time) (token : String) (expiresIn : Int) :
    TokenManager :=
  { tm with AccessToken := token, ExpiresAt := Add now (secondsDuration expiresIn) }

/-- The method `GetToken`, with `now` the reading of its `time.Now()`. -/
def GetToken (tm : TokenManager) (now : Time) : String × Bool :=
  if Before now tm.ExpiresAt then (tm.AccessToken, true) else ("", false)

/-- The type of a refresh closure `func() (string, int, error)`: it may read
and change the world `σ` it closes over, and returns its three results. -/
abbrev RefreshFunc (σ : Type) := σ → (String × Int × Option GoError) × σ

/-- The method `RefreshToken`. `now₁` is the reading of the `time.Now()` of
the validity test, `now₂` that of the `time.Now()` taken after the closure
has returned. The result is the returned pair, the manager and the world. -/
def RefreshToken {σ : Type} (tm : TokenManager) (now₁ now₂ : Time)
    (refreshFunc : RefreshFunc σ) (w : σ) :
    (String × Option GoError) × TokenManager × σ :=
  if Before now₁ tm.ExpiresAt then
    ((tm.AccessToken, none), tm, w)
  else
    match refreshFunc w with
    | ((token, expiresIn, err), w₁) =>
      match err with
      | some e => (("", some e), tm, w₁)
      | none =>
        ((token, none),
          { tm with AccessToken := token, ExpiresAt := Add now₂ (secondsDuration expiresIn) },
          w₁)

/-- A closure instrumented with a call counter, the way a test counts the
invocations of the closure it passes: each call adds one. -/
def counted {σ : Type} (f : RefreshFunc σ) : RefreshFunc (σ × Nat) :=
  fun s => ((f s.1).1, ((f s.1).2, s.2 + 1))

/-! ## The authorization-code exchange -/

/-- Go's `int32`. -/
abbrev GoInt32 := { n : Int // -2147483648 ≤ n ∧ n ≤ 2147483647 }

/-- The struct `accessPayload`. -/
structure accessPayload where
  AccessToken : String
  TokenType : String
  ExpiresIn : GoInt32
  RefreshToken : String
  deriving DecidableEq

/-- The struct `UserProfile`. -/
structure UserProfile where
  DisplayName : String
  ID : String
  Email : String
  Country : String
  Product : String
  Uri : String
  deriving DecidableEq, Repr

/-- The package variables read from the environment in `constant.go`. -/
structure Env where
  ClientID : String
  ClientSecret : String
  RedirectURI : String

/-- The constant `BaseAPIURL`. -/
def BaseAPIURL : String := "https://api.spotify.com/v1"

/-- What the code puts into an `http.Request`. -/
structure Request where
  Method : String
  URL : String
  Header : List (String × String)
  Form : List (String × String)
  deriving DecidableEq, Repr

/-- What `http.NewRequest` followed by `client.Do` ends in: an error of the
first, an error of the second, or a response with its status and body. -/
inductive HttpResult where
  | newRequestFailed (err : GoError)
  | doFailed (err : GoError)
  | response (StatusCode : Nat) (body : String)
  deriving DecidableEq, Repr

/-- The libraries the code calls: the HTTP client, acting on the world, and
the JSON decoder at the two types the code decodes into. -/
structure Net (σ : Type) where
  roundTrip : Request → σ → HttpResult × σ
  decodeAccessPayload : String → Except GoError accessPayload
  decodeUserProfile : String → Except GoError UserProfile

/-- The constant `http.StatusOK`. -/
def StatusOK : Nat := 200

/-- The request `ExchangeAccessToken` builds for `code`: the form values it
sets, the method, the URL and the header. -/
def tokenRequest (env : Env) (code : String) : Request :=
  { Method := "POST"
    URL := "https://accounts.spotify.com/api/token"
    Header := [("Content-Type", "application/x-www-form-urlencoded")]
    Form := [("grant_type", "authorization_code"), ("code", code),
      ("client_id", env.ClientID), ("client_secret", env.ClientSecret),
      ("redirect_uri", env.RedirectURI)] }

/-- The function `ExchangeAccessToken`: the pair of a nullable pointer to the
payload and a nullable error, and the world after the request. -/
def ExchangeAccessToken {σ : Type} (env : Env) (net : Net σ) (code : String) (w : σ) :
    (Option accessPayload × Option GoError) × σ :=
  match net.roundTrip (tokenRequest env code) w with
  | (.newRequestFailed err, w₁) => ((none, some (ErrorfW "failed to create request: " err)), w₁)
  | (.doFailed err, w₁) => ((none, some (ErrorfW "failed to make request: " err)), w₁)
  | (.response status body, w₁) =>
    if status ≠ StatusOK then
      ((none, some (ErrorfS "authentication failed: " body)), w₁)
    else
      match net.decodeAccessPayload body with
      | .error err => ((none, some (ErrorfW "failed to parse response: " err)), w₁)
      | .ok payload => ((some payload, none), w₁)

/-- The function `GetProfile`. -/
def GetProfile {σ : Type} (net : Net σ) (accessToken baseUrl : String) (w : σ) :
    (Option UserProfile × Option GoError) × σ :=
  let req : Request :=
    { Method := "GET"
      URL := baseUrl ++ "/me"
      Header := [("Authorization", "Bearer " ++ accessToken)]
      Form := [] }
  match net.roundTrip req w with
  | (.newRequestFailed err, w₁) => ((none, some (ErrorfW "failed to create request: " err)), w₁)
  | (.doFailed err, w₁) => ((none, some (ErrorfW "failed to make request: " err)), w₁)
  | (.response status body, w₁) =>
    if status ≠ StatusOK then
      ((none, some (ErrorfS "failed to fetch profile: " body)), w₁)
    else
      match net.decodeUserProfile body with
      | .error err => ((none, some (ErrorfW "failed to parse response: " err)), w₁)
      | .ok profile => ((some profile, none), w₁)

/-- How the body of a function ends: it returns, or it panics on the
dereference of a nil pointer. -/
inductive Run (α : Type) where
  | returned (v : α)
  | nilDereference
  deriving DecidableEq, Repr

/-- The method `GetAccessToken`. `now₁` is the reading of the `time.Now()`
of the validity test, `now₂` that of the one taken after the exchange. The
result is the returned pair (or a panic), the manager and the world. -/
def GetAccessToken {σ : Type} (env : Env) (net : Net σ) (tm : TokenManager)
    (now₁ now₂ : Time) (code : String) (w : σ) :
    Run (String × Option GoError) × TokenManager × σ :=
  if Before now₁ tm.ExpiresAt then
    (.returned (tm.AccessToken, none), tm, w)
  else
    match ExchangeAccessToken env net code w with
    | ((token, err), w₁) =>
      match err with
      | some e => (.returned ("", some (ErrorfW "failed to fetch access token: " e)), tm, w₁)
      | none =>
        match token with
        | none => (.nilDereference, tm, w₁)
        | some p =>
          (.returned (p.AccessToken, none),
            { tm with AccessToken := p.AccessToken,
                      ExpiresAt := Add now₂ (secondsDuration p.ExpiresIn.val) },
            w₁)

/-- A network instrumented with the log of the requests sent through it. -/
def recording {σ : Type} (net : Net σ) : Net (σ × List Request) :=
  { roundTrip := fun req s => ((net.roundTrip req s.1).1, ((net.roundTrip req s.1).2, s.2 ++ [req]))
    decodeAccessPayload := net.decodeAccessPayload
    decodeUserProfile := net.decodeUserProfile }

/-- The refresh closure of the comparison of `GetAccessToken` with
`RefreshToken`, written from the specification: it performs the exchange for
`code` and yields the access token and the lifetime of the payload together
with the error of the exchange (the empty token and a zero lifetime when the
exchange gave no payload). -/
def exchangeClosure {σ : Type} (env : Env) (net : Net σ) (code : String) : RefreshFunc σ :=
  fun w =>
    match ExchangeAccessToken env net code w with
    | ((some p, err), w₁) => ((p.AccessToken, p.ExpiresIn.val, err), w₁)
    | ((none, err), w₁) => (("", 0, err), w₁)

/-! ## The search and player calls -/

/-- Go's `uint64`. -/
abbrev GoUInt64 := { n : Nat // n < 18446744073709551616 }

/-- The anonymous struct of the fields `Album` and `Artists` of a `Track`. -/
structure NameID where
  Name : String
  ID : String
  deriving DecidableEq

/-- The struct `Track`. -/
structure Track where
  Name : String
  DurationMS : GoInt32
  ID : String
  DataType : String
  Album : NameID
  Artists : List NameID
  deriving DecidableEq

/-- The anonymous struct of the field `Tracks` of a `SearchResponse`. -/
structure TrackItems where
  Items : List Track
  deriving DecidableEq

/-- The struct `SearchResponse`. -/
structure SearchResponse where
  Tracks : TrackItems
  deriving DecidableEq

/-- The struct `Actions`. -/
structure Actions where
  InterruptingPlayback : Bool
  Pausing : Bool
  Resuming : Bool
  Seeking : Bool
  SkippingNext : Bool
  SkippingPrev : Bool
  TogglingRepeatContext : Bool
  TogglingShuffle : Bool
  TogglingRepeatTrack : Bool
  TransferringPlayback : Bool
  deriving DecidableEq

/-- The struct `DeviceData` (its field `Type` is `DeviceType` here). -/
structure DeviceData where
  ID : String
  IsActive : Bool
  IsPrivateSession : Bool
  IsRestricted : Bool
  Name : String
  DeviceType : String
  VolumePercent : GoInt32
  SupportsVolume : Bool
  deriving DecidableEq

/-- The struct `DeviceResponse`. -/
structure DeviceResponse where
  Devices : List DeviceData
  deriving DecidableEq

/-- The struct `PlayBackResponse`; its pointer fields are options. -/
structure PlayBackResponse where
  Device : Option DeviceData
  RepeatState : String
  ShuffleState : Bool
  Timestamp : GoUInt64
  ProgressMS : GoUInt64
  Item : Option Track
  CurrentlyPlayingType : String
  Actions : Option Actions
  deriving DecidableEq

/-- The constant `http.StatusNoContent`. -/
def StatusNoContent : Nat := 204

/-- The constant `http.StatusUnauthorized`. -/
def StatusUnauthorized : Nat := 401

/-- The request `SearchSpotify` builds. The query parameters it sets are kept
as the form values, in the order the code sets them, rather than encoded into
the URL. -/
def searchRequest (accessToken query searchType : String) (limit : GoInt32) : Request :=
  { Method := "GET"
    URL := BaseAPIURL ++ "/search"
    Header := [("Authorization", "Bearer " ++ accessToken)]
    Form := [("q", query), ("type", searchType), ("limit", toString limit.val)] }

/-- The function `SearchSpotify`, with `decode` the JSON decoder at
`SearchResponse`. -/
def SearchSpotify {σ : Type} (net : Net σ) (decode : String → Except GoError SearchResponse)
    (accessToken query searchType : String) (limit : GoInt32) (w : σ) :
    (Option SearchResponse × Option GoError) × σ :=
  match net.roundTrip (searchRequest accessToken query searchType limit) w with
  | (.newRequestFailed err, w₁) => ((none, some (ErrorfW "failed to create request: " err)), w₁)
  | (.doFailed err, w₁) => ((none, some (ErrorfW "failed to make request: " err)), w₁)
  | (.response status body, w₁) =>
    if status ≠ StatusOK then
      ((none, some (ErrorfS "failed to search music: " body)), w₁)
    else
      match decode body with
      | .error err => ((none, some (ErrorfW "failed to parse response: " err)), w₁)
      | .ok results => ((some results, none), w₁)

/-- The request `GetPlayBack` builds. -/
def playbackRequest (accessToken : String) : Request :=
  { Method := "GET"
    URL := BaseAPIURL ++ "/me/player"
    Header := [("Authorization", "Bearer " ++ accessToken)]
    Form := [] }

/-- The function `GetPlayBack`, with `decode` the JSON decoder at
`PlayBackResponse`. -/
def GetPlayBack {σ : Type} (net : Net σ) (decode : String → Except GoError PlayBackResponse)
    (accessToken : String) (w : σ) :
    (Option PlayBackResponse × Nat × Option GoError) × σ :=
  match net.roundTrip (playbackRequest accessToken) w with
  | (.newRequestFailed err, w₁) =>
    ((none, 500, some (ErrorfW "failed to create request: " err)), w₁)
  | (.doFailed err, w₁) => ((none, 500, some (ErrorfW "failed to make request: " err)), w₁)
  | (.response status body, w₁) =>
    if status = StatusNoContent then
      ((none, status, some (.errorString "no content found: playback state unavailable")), w₁)
    else if status ≠ StatusOK then
      ((none, status, some (ErrorfS "failed to get player: " body)), w₁)
    else
      match decode body with
      | .error err => ((none, status, some (ErrorfW "failed to parse response: " err)), w₁)
      | .ok results => ((some results, status, none), w₁)

/-- The request `GetDevices` builds. -/
def devicesRequest (accessToken : String) : Request :=
  { Method := "GET"
    URL := BaseAPIURL ++ "/me/player/devices"
    Header := [("Authorization", "Bearer " ++ accessToken)]
    Form := [] }

/-- The function `GetDevices`, with `decode` the JSON decoder at
`DeviceResponse`. -/
def GetDevices {σ : Type} (net : Net σ) (decode : String → Except GoError DeviceResponse)
    (accessToken : String) (w : σ) :
    (Option DeviceResponse × Nat × Option GoError) × σ :=
  match net.roundTrip (devicesRequest accessToken) w with
  | (.newRequestFailed err, w₁) =>
    ((none, 500, some (ErrorfW "failed to create request: " err)), w₁)
  | (.doFailed err, w₁) => ((none, 500, some (ErrorfW "failed to make request: " err)), w₁)
  | (.response status body, w₁) =>
    if status ≠ StatusOK then
      ((none, status, some (ErrorfS "failed to get devices: " body)), w₁)
    else
      match decode body with
      | .error err => ((none, status, some (ErrorfW "failed to parse response: " err)), w₁)
      | .ok results => ((some results, status, none), w₁)

/-- The URL of a player command: `deviceID`, when not empty, is appended as
the `device_id` query parameter. -/
def commandURL (path deviceID : String) : String :=
  if deviceID ≠ "" then BaseAPIURL ++ path ++ "?device_id=" ++ deviceID
  else BaseAPIURL ++ path

/-- The request `PausePlayback` builds. -/
def pauseRequest (accessToken deviceID : String) : Request :=
  { Method := "PUT"
    URL := commandURL "/me/player/pause" deviceID
    Header := [("Authorization", "Bearer " ++ accessToken), ("Content-Type", "application/json")]
    Form := [] }

/-- The function `PausePlayback`: the status code and the nullable error. -/
def PausePlayback {σ : Type} (net : Net σ) (accessToken deviceID : String) (w : σ) :
    (Nat × Option GoError) × σ :=
  match net.roundTrip (pauseRequest accessToken deviceID) w with
  | (.newRequestFailed err, w₁) => ((500, some (ErrorfW "failed to create request: " err)), w₁)
  | (.doFailed err, w₁) => ((500, some (ErrorfW "failed to make request: " err)), w₁)
  | (.response status body, w₁) =>
    if status ≠ StatusNoContent ∧ status ≠ StatusOK then
      ((status, some (ErrorfS "failed to pause playback: " body)), w₁)
    else
      ((status, none), w₁)

/-- The request `SkipNext` builds. -/
def skipNextRequest (accessToken deviceID : String) : Request :=
  { Method := "POST"
    URL := commandURL "/me/player/next" deviceID
    Header := [("Authorization", "Bearer " ++ accessToken)]
    Form := [] }

/-- The function `SkipNext`: the status code and the nullable error. -/
def SkipNext {σ : Type} (net : Net σ) (accessToken deviceID : String) (w : σ) :
    (Nat × Option GoError) × σ :=
  match net.roundTrip (skipNextRequest accessToken deviceID) w with
  | (.newRequestFailed err, w₁) => ((500, some (ErrorfW "failed to create request: " err)), w₁)
  | (.doFailed err, w₁) => ((500, some (ErrorfW "failed to make request: " err)), w₁)
  | (.response status body, w₁) =>
    if status ≠ StatusNoContent ∧ status ≠ StatusOK then
      ((status, some (ErrorfS "failed to skip to the next track: " body)), w₁)
    else
      ((status, none), w₁)

/-! ## The callback handler -/

/-- The constants `http.StatusBadRequest` and
`http.StatusInternalServerError`. -/
def StatusBadRequest : Nat := 400

/-- The constant `http.StatusInternalServerError`. -/
def StatusInternalServerError : Nat := 500

/-- A value handed to `ctx.JSON`: a `gin.H` map of strings, or the pointer
(nil or not) to a result of one of the API calls. -/
inductive Body where
  | H (fields : List (String × String))
  | profile (p : Option UserProfile)
  | search (r : Option SearchResponse)
  | playback (r : Option PlayBackResponse)
  | devices (r : Option DeviceResponse)
  deriving DecidableEq

/-- One `ctx.JSON(status, body)` call. -/
structure Response where
  status : Nat
  body : Body
  deriving DecidableEq

end api

namespace v1

open api

/-- The handler returned by `HandleCallback`, on a request whose `code` query
parameter is `code`. `nowSet` and `nowGet` are the clock readings of the
`SetToken` and `GetToken` calls. The result is the list of `ctx.JSON` writes
(or a panic), the manager and the world. -/
def HandleCallback {σ : Type} (env : Env) (net : Net σ) (tokenMx : TokenManager)
    (nowSet nowGet : Time) (code : String) (w : σ) :
    Run (List Response) × TokenManager × σ :=
  if code = "" then
    (.returned [⟨StatusBadRequest, .H [("error", "Missing authorization code")]⟩], tokenMx, w)
  else
    match ExchangeAccessToken env net code w with
    | ((token, err), w₁) =>
      match token with
      | none => (.nilDereference, tokenMx, w₁)
      | some p =>
        let tokenMx₁ := SetToken tokenMx nowSet p.AccessToken p.ExpiresIn.val
        match err with
        | some e => (.returned [⟨StatusInternalServerError, .H [("error", e.Error)]⟩], tokenMx₁, w₁)
        | none =>
          let accToken := (GetToken tokenMx₁ nowGet).1
          match GetProfile net accToken BaseAPIURL w₁ with
          | ((profile, err₂), w₂) =>
            match err₂ with
            | some e₂ =>
              (.returned [⟨StatusInternalServerError, .H [("error", e₂.Error)]⟩], tokenMx₁, w₂)
            | none => (.returned [⟨StatusOK, .profile profile⟩], tokenMx₁, w₂)

/-- The handler returned by `SearchHandler`, on a request whose `q` query
parameter is `query`; `now` is the clock reading of its `GetToken` call. The
result is the list of `ctx.JSON` writes and the world. -/
def SearchHandler {σ : Type} (net : Net σ) (decode : String → Except GoError SearchResponse)
    (tokenMx : TokenManager) (now : Time) (query : String) (w : σ) : List Response × σ :=
  if query = "" then
    ([⟨StatusBadRequest, .H [("error", "Query parameter \x27q\x27 is required")]⟩], w)
  else
    let accToken := (GetToken tokenMx now).1
    match SearchSpotify net decode accToken query "track" ⟨10, by decide⟩ w with
    | ((results, err), w₁) =>
      match err with
      | some e => ([⟨StatusInternalServerError, .H [("error", e.Error)]⟩], w₁)
      | none => ([⟨StatusOK, .search results⟩], w₁)

/-- The handler returned by `PlayBackHandler`; `now` is the clock reading of
its `GetToken` call. -/
def PlayBackHandler {σ : Type} (net : Net σ)
    (decode : String → Except GoError PlayBackResponse)
    (tokenMx : TokenManager) (now : Time) (w : σ) : List Response × σ :=
  match GetToken tokenMx now with
  | (accessToken, valid) =>
    if !valid then
      ([⟨StatusUnauthorized, .H [("error", "Invalid token")]⟩], w)
    else
      match GetPlayBack net decode accessToken w with
      | ((results, httpStatus, err), w₁) =>
        match err with
        | some e => ([⟨httpStatus, .H [("error", e.Error)]⟩], w₁)
        | none => ([⟨StatusOK, .playback results⟩], w₁)

/-- The handler returned by `DevicesHandler`; `now` is the clock reading of
its `GetToken` call. -/
def DevicesHandler {σ : Type} (net : Net σ)
    (decode : String → Except GoError DeviceResponse)
    (tokenMx : TokenManager) (now : Time) (w : σ) : List Response × σ :=
  match GetToken tokenMx now with
  | (accessToken, valid) =>
    if !valid then
      ([⟨StatusUnauthorized, .H [("error", "Invalid token")]⟩], w)
    else
      match GetDevices net decode accessToken w with
      | ((result, status, err), w₁) =>
        match err with
        | some e => ([⟨status, .H [("error", e.Error)]⟩], w₁)
        | none => ([⟨StatusOK, .devices result⟩], w₁)

/-- The handler returned by `PausePlaybackHandler`; `now` is the clock
reading of its `GetToken` call and `bound` what `ctx.ShouldBindJSON` makes of
the request body: an error, or the `device_id`. The error branch of the API
call writes its response and, having no `return`, falls through to the write
that follows. -/
def PausePlaybackHandler {σ : Type} (net : Net σ) (tokenMx : TokenManager) (now : Time)
    (bound : Except GoError String) (w : σ) : List Response × σ :=
  match GetToken tokenMx now with
  | (accessToken, valid) =>
    if !valid then
      ([⟨StatusUnauthorized, .H [("error", "Invalid token")]⟩], w)
    else
      match bound with
      | .error _ => ([⟨StatusBadRequest, .H [("error", "Invalid JSON")]⟩], w)
      | .ok deviceID =>
        match PausePlayback net accessToken deviceID w with
        | ((statusCode, err), w₁) =>
          ((match err with
            | some e => [⟨statusCode, .H [("error", e.Error)]⟩]
            | none => [])
            ++ [⟨statusCode, .H [("status", "Playback paused")]⟩], w₁)

/-- The handler returned by `SkipNextHandler`, with `now` and `bound` as in
`PausePlaybackHandler`. -/
def SkipNextHandler {σ : Type} (net : Net σ) (tokenMx : TokenManager) (now : Time)
    (bound : Except GoError String) (w : σ) : List Response × σ :=
  match GetToken tokenMx now with
  | (accessToken, valid) =>
    if !valid then
      ([⟨StatusUnauthorized, .H [("error", "Invalid token")]⟩], w)
    else
      match bound with
      | .error _ => ([⟨StatusBadRequest, .H [("error", "Invalid JSON")]⟩], w)
      | .ok deviceID =>
        match SkipNext net accessToken deviceID w with
        | ((statusCode, err), w₁) =>
          match err with
          | some e => ([⟨statusCode, .H [("error", e.Error)]⟩], w₁)
          | none => ([⟨statusCode, .H [("status", "Skipped to next track")]⟩], w₁)

end v1

/-! ## Concrete instances, used to evaluate the definitions -/

namespace api

/-- A clock reading in the year 2026, in nanoseconds since Go's zero time. -/
def t2026 : Time := 63900000000000000000

/-- A closure that succeeds with a one-hour token. -/
def refreshOk : RefreshFunc Unit := fun w => (("xyz789", 3600, none), w)

/-- A closure that succeeds with a lifetime of 9223372037 seconds, an `int`
whose product with `time.Second` leaves the `int64` range. -/
def refreshHuge : RefreshFunc Unit := fun w => (("xyz789", 9223372037, none), w)

/-- A closure that fails, returning a token and a lifetime beside its error. -/
def refreshFail : RefreshFunc Unit :=
  fun w => (("ignored", 3600, some (.errorString "upstream unavailable")), w)

/-- Some client credentials. -/
def envSample : Env :=
  { ClientID := "id", ClientSecret := "secret", RedirectURI := "http://localhost:8080/callback" }

/-- A payload granting `abc123` for one hour. -/
def payloadSample : accessPayload :=
  { AccessToken := "abc123", TokenType := "Bearer", ExpiresIn := ⟨3600, by decide⟩,
    RefreshToken := "r1" }

/-- A network whose token endpoint answers 200 with `payloadSample`. -/
def netOk : Net Unit :=
  { roundTrip := fun _ w => (.response 200 "{}", w)
    decodeAccessPayload := fun _ => .ok payloadSample
    decodeUserProfile := fun _ => .ok ⟨"Ann", "u1", "ann@example.com", "KE", "premium", "uri"⟩ }

/-- A network whose endpoints answer 400 with the body `invalid_grant`. -/
def netDenied : Net Unit :=
  { roundTrip := fun _ w => (.response 400 "invalid_grant", w)
    decodeAccessPayload := fun _ => .ok payloadSample
    decodeUserProfile := fun _ => .ok ⟨"Ann", "u1", "ann@example.com", "KE", "premium", "uri"⟩ }

/-- A closure that succeeds with a lifetime of zero seconds. -/
def refreshZero : RefreshFunc Unit := fun w => (("xyz789", 0, none), w)

/-- A closure that succeeds with a lifetime of -9223372037 seconds, an `int`
whose product with `time.Second` leaves the `int64` range. -/
def refreshNegative : RefreshFunc Unit := fun w => (("xyz789", -9223372037, none), w)

/-- A payload granting `abc123` with `expires_in` 0. -/
def payloadZero : accessPayload :=
  { AccessToken := "abc123", TokenType := "Bearer", ExpiresIn := ⟨0, by decide⟩,
    RefreshToken := "r1" }

/-- The profile the sample networks decode. -/
def profileSample : UserProfile := ⟨"Ann", "u1", "ann@example.com", "KE", "premium", "uri"⟩

/-- A network that answers 200 to every request and whose token endpoint
grants `payloadZero`. -/
def netZero : Net Unit :=
  { roundTrip := fun _ w => (.response 200 "{}", w)
    decodeAccessPayload := fun _ => .ok payloadZero
    decodeUserProfile := fun _ => .ok profileSample }

/-- A network that answers 403 to every request. -/
def netForbidden : Net Unit :=
  { roundTrip := fun _ w => (.response 403 "Premium required", w)
    decodeAccessPayload := fun _ => .ok payloadSample
    decodeUserProfile := fun _ => .ok profileSample }

/-- A search result without tracks. -/
def searchSample : SearchResponse := ⟨⟨[]⟩⟩

/-- A decoder that yields `searchSample`. -/
def decodeSearchOk : String → Except GoError SearchResponse := fun _ => .ok searchSample

/-- A playback state without device, item or actions. -/
def playbackSample : PlayBackResponse :=
  { Device := none, RepeatState := "off", ShuffleState := false, Timestamp := ⟨0, by decide⟩,
    ProgressMS := ⟨0, by decide⟩, Item := none, CurrentlyPlayingType := "track",
    Actions := none }

/-- A decoder that yields `playbackSample`. -/
def decodePlayBackOk : String → Except GoError PlayBackResponse := fun _ => .ok playbackSample

/-- A decoder that yields an empty list of devices. -/
def decodeDevicesOk : String → Except GoError DeviceResponse := fun _ => .ok ⟨[]⟩

end api

/-! ## Facts about durations -/

namespace api

/-- Inside the signed 64-bit range the reduction changes nothing. -/
theorem wrapInt64_of_range (x : Int) (hlo : -9223372036854775808 ≤ x)
    (hhi : x ≤ 9223372036854775807) : wrapInt64 x = x := by
  unfold wrapInt64
  have h : (x + 2 ^ 63) % 2 ^ 64 = x + 2 ^ 63 := by
    apply Int.emod_eq_of_lt <;> omega
  omega

/-- The reduced value never exceeds the largest `int64`. -/
theorem wrapInt64_le_max (x : Int) : wrapInt64 x ≤ 9223372036854775807 := by
  unfold wrapInt64
  have h : (x + 2 ^ 63) % 2 ^ 64 < 2 ^ 64 := Int.emod_lt_of_pos _ (by norm_num)
  omega

/-- A lifetime of at most 9223372036 seconds in absolute value is converted
to nanoseconds exactly. -/
theorem secondsDuration_exact (n : Int) (hlo : -9223372036 ≤ n) (hhi : n ≤ 9223372036) :
    secondsDuration n = n * 1000000000 := by
  unfold secondsDuration Second
  rw [wrapInt64_of_range n (by omega) (by omega)]
  exact wrapInt64_of_range _ (by omega) (by omega)

/-- From -9223372036 seconds upwards, the converted duration is never longer
than the lifetime asked for. -/
theorem secondsDuration_le (n : Int) (hlo : -9223372036 ≤ n) :
    secondsDuration n ≤ n * 1000000000 := by
  by_cases h : n ≤ 9223372036
  · exact le_of_eq (secondsDuration_exact n hlo h)
  · have h₁ : wrapInt64 (wrapInt64 n * Second) ≤ 9223372036854775807 :=
      wrapInt64_le_max (wrapInt64 n * Second)
    have h₂ : (9223372036854775807 : Int) ≤ n * 1000000000 := by omega
    exact le_trans h₁ h₂

/-- An `int32` number of seconds is converted to nanoseconds exactly. -/
theorem secondsDuration_int32 (n : GoInt32) : secondsDuration n.val = n.val * 1000000000 :=
  secondsDuration_exact n.val (by have := n.property.1; omega) (by have := n.property.2; omega)

end api

/-! ## SetToken and GetToken -/

namespace api

/-- C1, as stated, fails: a positive lifetime of 9223372037 seconds is an
`int` whose nanosecond count wraps to a negative duration, so the `GetToken`
made at the very clock reading of `SetToken` returns `("", false)`. -/
theorem C1_fails_on_overflow :
    (0 : Int) < 9223372037 ∧ (9223372037 : Int) ≤ 9223372036854775807 ∧
    t2026 < t2026 + 9223372037 * 1000000000 ∧
    GetToken (SetToken NewTokenManager t2026 "abc123" 9223372037) t2026 = ("", false) := by
  decide

/-- C1, amended: for every token `t`, every lifetime `0 < L ≤ 9223372036`
seconds and every prior cache state, `GetToken` at a clock reading earlier
than the reading of `SetToken(t, L)` plus `L` seconds returns `(t, true)`. -/
theorem C1_get_after_set (tm : TokenManager) (t : String) (L : Int) (t0 t1 : Time)
    (hpos : 0 < L) (hmax : L ≤ 9223372036) (h : t1 < t0 + L * 1000000000) :
    GetToken (SetToken tm t0 t L) t1 = (t, true) := by
  have hd := secondsDuration_exact L (by omega) hmax
  simp only [GetToken, SetToken, Before, Add, hd]
  simp [h]

/-- The amended C1 at a one-hour token read back one second later. -/
theorem C1_get_after_set_witness :
    (0 : Int) < 3600 ∧
    GetToken (SetToken NewTokenManager t2026 "abc123" 3600) (t2026 + 1000000000)
      = ("abc123", true) :=
  ⟨by decide,
   C1_get_after_set NewTokenManager "abc123" 3600 t2026 (t2026 + 1000000000)
     (by decide) (by decide) (by decide)⟩

/-- C2, as stated, fails: a lifetime of -9223372037 seconds is an `int` whose
nanosecond count wraps to a positive duration of some 292 years, so a
`GetToken` one second after `SetToken`, long past the negative lifetime,
returns the token. -/
theorem C2_fails_on_overflow :
    (-9223372036854775808 : Int) ≤ -9223372037 ∧
    t2026 + (-9223372037) * 1000000000 < t2026 + 1000000000 ∧
    GetToken (SetToken NewTokenManager t2026 "abc123" (-9223372037)) (t2026 + 1000000000)
      = ("abc123", true) := by
  decide

/-- C2, amended: for every token and every lifetime `L ≥ -9223372036`
seconds (positive, zero or negative), if `SetToken(t, L)` ran at reading `t0`
on any cache state, `GetToken` at any reading later than `t0` plus `L` seconds
returns `("", false)`. -/
theorem C2_get_after_expiry (tm : TokenManager) (t : String) (L : Int) (t0 t1 : Time)
    (hlo : -9223372036 ≤ L) (h : t0 + L * 1000000000 < t1) :
    GetToken (SetToken tm t0 t L) t1 = ("", false) := by
  have hd : secondsDuration L ≤ L * 1000000000 := secondsDuration_le L hlo
  have hnot : ¬ t1 < t0 + secondsDuration L := by
    intro hlt
    have : t0 + secondsDuration L ≤ t0 + L * 1000000000 := by
      exact Int.add_le_add_left hd t0
    exact absurd (lt_of_lt_of_le hlt this) (not_lt.mpr (le_of_lt h))
  simp only [GetToken, SetToken, Before, Add]
  simp [hnot]

/-- The amended C2 at a one-hour token read 3601 seconds later. -/
theorem C2_get_after_expiry_witness :
    t2026 + 3600 * 1000000000 < t2026 + 3601 * 1000000000 ∧
    GetToken (SetToken NewTokenManager t2026 "abc123" 3600) (t2026 + 3601 * 1000000000)
      = ("", false) :=
  ⟨by decide,
   C2_get_after_expiry NewTokenManager "abc123" 3600 t2026 (t2026 + 3601 * 1000000000)
     (by decide) (by decide)⟩

/-- C3: on the cache state `(token, expiresAt)` at the reading `now`,
`GetToken` returns `(token, true)` exactly when `now < expiresAt` and
`("", false)` exactly when `expiresAt ≤ now`; at `now = expiresAt` it returns
`("", false)`; and it returns nothing else, so a result with `ok = false`
always carries the empty string. -/
theorem C3_getToken_spec (token : String) (expiresAt now : Time) :
    (GetToken ⟨token, expiresAt⟩ now = (token, true) ↔ now < expiresAt) ∧
    (GetToken ⟨token, expiresAt⟩ now = ("", false) ↔ expiresAt ≤ now) ∧
    GetToken ⟨token, expiresAt⟩ expiresAt = ("", false) ∧
    (GetToken ⟨token, expiresAt⟩ now = (token, true) ∨
      GetToken ⟨token, expiresAt⟩ now = ("", false)) := by
  refine ⟨?_, ?_, ?_, ?_⟩
  · by_cases h : now < expiresAt <;> simp [GetToken, Before, h]
  · by_cases h : now < expiresAt
    · simp [GetToken, Before, h, not_le.mpr h]
    · simp [GetToken, Before, h, not_lt.mp h]
  · simp [GetToken, Before]
  · by_cases h : now < expiresAt <;> simp [GetToken, Before, h]

end api

/-! ## RefreshToken -/

namespace api

/-- C4: on every cache state with `now₁ < ExpiresAt` and for every refresh
closure, `RefreshToken` returns the cached token with a nil error, leaves the
token and the expiry as they were, and does not call the closure: the call
counter of the instrumented closure and the world it acts on are unchanged. -/
theorem C4_refresh_fast_path {σ : Type} (tm : TokenManager) (now₁ now₂ : Time)
    (f : RefreshFunc σ) (w : σ) (n : Nat) (hvalid : now₁ < tm.ExpiresAt) :
    RefreshToken tm now₁ now₂ (counted f) (w, n) = ((tm.AccessToken, none), tm, (w, n)) := by
  simp [RefreshToken, Before, hvalid]

/-- C4 on a valid cached `abc123`. -/
theorem C4_refresh_fast_path_witness :
    t2026 < (TokenManager.mk "abc123" (t2026 + 5)).ExpiresAt ∧
    RefreshToken ⟨"abc123", t2026 + 5⟩ t2026 (t2026 + 1) (counted refreshOk) ((), 0)
      = (("abc123", none), ⟨"abc123", t2026 + 5⟩, ((), 0)) :=
  ⟨by decide,
   C4_refresh_fast_path ⟨"abc123", t2026 + 5⟩ t2026 (t2026 + 1) refreshOk () 0 (by decide)⟩

/-- C5, as stated, fails: on an expired cache, a closure that returns the
lifetime 9223372037 with a nil error leaves an expiry that is not the reading
after the closure plus 9223372037 seconds (the nanosecond count wraps, and
the stored expiry lies some 292 years before that reading). -/
theorem C5_fails_on_overflow :
    ¬ (t2026 < (TokenManager.mk "abc123" t2026).ExpiresAt) ∧
    (refreshHuge ()).1 = ("xyz789", 9223372037, none) ∧
    (RefreshToken ⟨"abc123", t2026⟩ t2026 (t2026 + 1) refreshHuge ()).2.1.ExpiresAt
      ≠ (t2026 + 1) + 9223372037 * 1000000000 ∧
    (RefreshToken ⟨"abc123", t2026⟩ t2026 (t2026 + 1) refreshHuge ()).2.1.ExpiresAt
      = (t2026 + 1) - 9223372036709551616 := by
  decide

/-- C5, amended: on every cache state with `ExpiresAt ≤ now₁` and for every
closure that returns `(t, L, nil)` with `-9223372036 ≤ L ≤ 9223372036`,
`RefreshToken` calls the closure exactly once (the counter of the
instrumented closure goes up by one and the world is the one the closure
left), returns `(t, nil)`, and leaves the cache with token `t` and expiry
`now₂ + L` seconds, `now₂` being the clock reading taken after the closure
returned. -/
theorem C5_refresh_success {σ : Type} (tm : TokenManager) (now₁ now₂ : Time)
    (f : RefreshFunc σ) (w : σ) (n : Nat) (t : String) (L : Int)
    (hexpired : tm.ExpiresAt ≤ now₁) (hf : (f w).1 = (t, L, none))
    (hlo : -9223372036 ≤ L) (hhi : L ≤ 9223372036) :
    RefreshToken tm now₁ now₂ (counted f) (w, n)
      = ((t, none), ⟨t, now₂ + L * 1000000000⟩, ((f w).2, n + 1)) := by
  have hd := secondsDuration_exact L hlo hhi
  have hnot : ¬ now₁ < tm.ExpiresAt := not_lt.mpr hexpired
  simp [RefreshToken, Before, hnot, counted, hf, Add, hd]

/-- C5, amended, on an expired `abc123` refreshed to a one-hour `xyz789`. -/
theorem C5_refresh_success_witness :
    (TokenManager.mk "abc123" t2026).ExpiresAt ≤ t2026 + 1 ∧
    (refreshOk ()).1 = ("xyz789", 3600, none) ∧
    RefreshToken ⟨"abc123", t2026⟩ (t2026 + 1) (t2026 + 2) (counted refreshOk) ((), 0)
      = (("xyz789", none), ⟨"xyz789", t2026 + 2 + 3600 * 1000000000⟩,
          ((refreshOk ()).2, 0 + 1)) :=
  ⟨by decide, rfl,
   C5_refresh_success ⟨"abc123", t2026⟩ (t2026 + 1) (t2026 + 2) refreshOk () 0 "xyz789" 3600
     (by decide) rfl (by decide) (by decide)⟩

/-- C6: on every cache state with `ExpiresAt ≤ now₁` and for every closure
that returns a non-nil error `e`, whatever token and lifetime come with it,
`RefreshToken` returns `("", e)` with that very `e`, and the closure has been
called exactly once: the counter of the instrumented closure goes up by one. -/
theorem C6_refresh_error_unchanged {σ : Type} (tm : TokenManager) (now₁ now₂ : Time)
    (f : RefreshFunc σ) (w : σ) (n : Nat) (t : String) (L : Int) (e : GoError)
    (hexpired : tm.ExpiresAt ≤ now₁) (hf : (f w).1 = (t, L, some e)) :
    (RefreshToken tm now₁ now₂ (counted f) (w, n)).1 = ("", some e) ∧
    (RefreshToken tm now₁ now₂ (counted f) (w, n)).2.2 = ((f w).2, n + 1) := by
  have hnot : ¬ now₁ < tm.ExpiresAt := not_lt.mpr hexpired
  simp [RefreshToken, Before, hnot, counted, hf]

/-- C6 on an expired cache and a failing closure. -/
theorem C6_refresh_error_unchanged_witness :
    (TokenManager.mk "abc123" t2026).ExpiresAt ≤ t2026 + 1 ∧
    (refreshFail ()).1 = ("ignored", 3600, some (.errorString "upstream unavailable")) ∧
    (RefreshToken ⟨"abc123", t2026⟩ (t2026 + 1) (t2026 + 2) (counted refreshFail) ((), 0)).1
      = ("", some (.errorString "upstream unavailable")) ∧
    (RefreshToken ⟨"abc123", t2026⟩ (t2026 + 1) (t2026 + 2) (counted refreshFail) ((), 0)).2.2
      = ((refreshFail ()).2, 0 + 1) :=
  ⟨by decide, rfl,
   C6_refresh_error_unchanged ⟨"abc123", t2026⟩ (t2026 + 1) (t2026 + 2) refreshFail () 0
     "ignored" 3600 (.errorString "upstream unavailable") (by decide) rfl⟩

/-- C7: on every cache state with `ExpiresAt ≤ now₁` and for every closure
that returns a non-nil error, the manager after `RefreshToken` equals the
manager before it (token and expiry), and `GetToken` on it at the reading
`now₁` or at any later one returns `("", false)`. -/
theorem C7_failed_refresh_atomic {σ : Type} (tm : TokenManager) (now₁ now₂ : Time)
    (f : RefreshFunc σ) (w : σ) (t : String) (L : Int) (e : GoError)
    (hexpired : tm.ExpiresAt ≤ now₁) (hf : (f w).1 = (t, L, some e)) :
    (RefreshToken tm now₁ now₂ f w).2.1 = tm ∧
    ∀ later : Time, now₁ ≤ later →
      GetToken (RefreshToken tm now₁ now₂ f w).2.1 later = ("", false) := by
  have hnot : ¬ now₁ < tm.ExpiresAt := not_lt.mpr hexpired
  have hstate : (RefreshToken tm now₁ now₂ f w).2.1 = tm := by
    unfold RefreshToken
    rcases hfw : f w with ⟨⟨t₁, L₁, e₁⟩, w₁⟩
    rw [hfw] at hf
    simp only [Prod.mk.injEq] at hf
    obtain ⟨_, _, rfl⟩ := hf
    simp [Before, hnot]
  refine ⟨hstate, ?_⟩
  intro later hlater
  rw [hstate]
  have : ¬ later < tm.ExpiresAt := not_lt.mpr (le_trans hexpired hlater)
  simp [GetToken, Before, this]

/-- C7 on an expired cache and a failing closure, read one second later. -/
theorem C7_failed_refresh_atomic_witness :
    (TokenManager.mk "abc123" t2026).ExpiresAt ≤ t2026 + 1 ∧
    (RefreshToken ⟨"abc123", t2026⟩ (t2026 + 1) (t2026 + 2) refreshFail ()).2.1
      = ⟨"abc123", t2026⟩ ∧
    GetToken (RefreshToken ⟨"abc123", t2026⟩ (t2026 + 1) (t2026 + 2) refreshFail ()).2.1
      (t2026 + 1000000000) = ("", false) :=
  ⟨by decide,
   (C7_failed_refresh_atomic ⟨"abc123", t2026⟩ (t2026 + 1) (t2026 + 2) refreshFail ()
      "ignored" 3600 (.errorString "upstream unavailable") (by decide) rfl).1,
   (C7_failed_refresh_atomic ⟨"abc123", t2026⟩ (t2026 + 1) (t2026 + 2) refreshFail ()
      "ignored" 3600 (.errorString "upstream unavailable") (by decide) rfl).2
      (t2026 + 1000000000) (by decide)⟩

end api

/-! ## GetAccessToken -/

namespace api

/-- Through a recording network, `ExchangeAccessToken` returns what it
returns through the network itself, and the log gains the one request built
for `code`. -/
theorem exchange_recording {σ : Type} (env : Env) (net : Net σ) (code : String) (w : σ)
    (log : List Request) :
    ExchangeAccessToken env (recording net) code (w, log)
      = ((ExchangeAccessToken env net code w).1,
          ((ExchangeAccessToken env net code w).2, log ++ [tokenRequest env code])) := by
  unfold ExchangeAccessToken recording
  simp only
  rcases hrt : net.roundTrip (tokenRequest env code) w with ⟨r, w₁⟩
  cases r with
  | newRequestFailed err => rfl
  | doFailed err => rfl
  | response status body =>
    by_cases hs : status = StatusOK
    · simp only [hs, ne_eq, not_true_eq_false, if_false]
      cases net.decodeAccessPayload body <;> rfl
    · simp only [ne_eq, hs, not_false_eq_true, if_true]

/-- An error made with `%w` is never the error it wraps. -/
theorem wrapError_ne (msg : String) (e : GoError) : GoError.wrapError msg e ≠ e := by
  intro h
  have hs := congrArg sizeOf h
  simp only [GoError.wrapError.sizeOf_spec] at hs
  omega

/-- C8: for every code, (a) if `now₁ < ExpiresAt`, `GetAccessToken` returns
the cached token with a nil error, leaves the manager unchanged and sends no
request (the log of the recording network and the world are unchanged);
(b) if `ExpiresAt ≤ now₁` and the exchange for that code succeeds with the
payload `p`, it sends exactly one request, the one built for that code,
returns `(p.AccessToken, nil)` and leaves the cache with token
`p.AccessToken` and expiry `now₂ + p.ExpiresIn` seconds, `now₂` being the
reading of the `time.Now()` of the store; (c) if `ExpiresAt ≤ now₁`, then
whatever the exchange ends in, success or failure, the exchange has been
made exactly once, with that code: the log gains the one request built for
the code and nothing else, and the world is the one a single exchange
leaves. -/
theorem C8_getAccessToken {σ : Type} (env : Env) (net : Net σ) (tm : TokenManager)
    (now₁ now₂ : Time) (code : String) (w : σ) (log : List Request) :
    (now₁ < tm.ExpiresAt →
      GetAccessToken env (recording net) tm now₁ now₂ code (w, log)
        = (.returned (tm.AccessToken, none), tm, (w, log))) ∧
    (tm.ExpiresAt ≤ now₁ → ∀ p : accessPayload,
      (ExchangeAccessToken env net code w).1 = (some p, none) →
      GetAccessToken env (recording net) tm now₁ now₂ code (w, log)
        = (.returned (p.AccessToken, none),
            ⟨p.AccessToken, now₂ + p.ExpiresIn.val * 1000000000⟩,
            ((ExchangeAccessToken env net code w).2, log ++ [tokenRequest env code])) ∧
      (tokenRequest env code).Form.lookup "code" = some code) ∧
    (tm.ExpiresAt ≤ now₁ →
      (GetAccessToken env (recording net) tm now₁ now₂ code (w, log)).2.2
        = ((ExchangeAccessToken env net code w).2, log ++ [tokenRequest env code]) ∧
      (tokenRequest env code).Form.lookup "code" = some code) := by
  refine ⟨?_, ?_, ?_⟩
  · intro hvalid
    simp [GetAccessToken, Before, hvalid]
  · intro hexpired p hex
    have hnot : ¬ now₁ < tm.ExpiresAt := not_lt.mpr hexpired
    refine ⟨?_, ?_⟩
    · unfold GetAccessToken
      rw [exchange_recording, hex]
      simp [Before, hnot, Add, secondsDuration_int32]
    · simp [tokenRequest, List.lookup]
  · intro hexpired
    have hnot : ¬ now₁ < tm.ExpiresAt := not_lt.mpr hexpired
    refine ⟨?_, ?_⟩
    · unfold GetAccessToken
      rw [exchange_recording]
      rcases ExchangeAccessToken env net code w with ⟨⟨token, err⟩, w₁⟩
      cases err with
      | some e => simp [Before, hnot]
      | none =>
        cases token with
        | none => simp [Before, hnot]
        | some p => simp [Before, hnot]
    · simp [tokenRequest, List.lookup]

/-- C8 on a valid cache, on an expired cache with an exchange that grants
`abc123` for one hour, and on an expired cache with an exchange that is
refused: one request in the log, the one for the code. -/
theorem C8_getAccessToken_witness :
    (t2026 < (TokenManager.mk "old" (t2026 + 5)).ExpiresAt ∧
      GetAccessToken envSample (recording netOk) ⟨"old", t2026 + 5⟩ t2026 (t2026 + 1) "c0de"
          ((), [])
        = (.returned ("old", none), ⟨"old", t2026 + 5⟩, ((), []))) ∧
    ((TokenManager.mk "old" t2026).ExpiresAt ≤ t2026 ∧
      (ExchangeAccessToken envSample netOk "c0de" ()).1 = (some payloadSample, none) ∧
      GetAccessToken envSample (recording netOk) ⟨"old", t2026⟩ t2026 (t2026 + 1) "c0de"
          ((), [])
        = (.returned ("abc123", none), ⟨"abc123", t2026 + 1 + 3600 * 1000000000⟩,
            ((), [] ++ [tokenRequest envSample "c0de"]))) ∧
    ((TokenManager.mk "old" t2026).ExpiresAt ≤ t2026 ∧
      (ExchangeAccessToken envSample netDenied "bad" ()).1
        = (none, some (.errorString "authentication failed: invalid_grant")) ∧
      (GetAccessToken envSample (recording netDenied) ⟨"old", t2026⟩ t2026 (t2026 + 1) "bad"
          ((), [])).2.2
        = ((ExchangeAccessToken envSample netDenied "bad" ()).2,
            [] ++ [tokenRequest envSample "bad"])) :=
  ⟨⟨by decide,
    (C8_getAccessToken envSample netOk ⟨"old", t2026 + 5⟩ t2026 (t2026 + 1) "c0de" () []).1
      (by decide)⟩,
   ⟨by decide, rfl,
    ((C8_getAccessToken envSample netOk ⟨"old", t2026⟩ t2026 (t2026 + 1) "c0de" () []).2.1
      (by decide) payloadSample rfl).1⟩,
   ⟨by decide, by decide,
    ((C8_getAccessToken envSample netDenied ⟨"old", t2026⟩ t2026 (t2026 + 1) "bad" () []).2.2
      (by decide)).1⟩⟩

/-- C9, as stated, fails: with an expired cache and a token endpoint that
answers 400, the exchange fails with the error `authentication failed:
invalid_grant`, and `GetAccessToken` returns another error, whose message is
`failed to fetch access token: authentication failed: invalid_grant`. -/
theorem C9_error_is_wrapped :
    ¬ (t2026 < NewTokenManager.ExpiresAt) ∧
    (ExchangeAccessToken envSample netDenied "bad" ()).1
      = (none, some (.errorString "authentication failed: invalid_grant")) ∧
    (GetAccessToken envSample netDenied NewTokenManager t2026 t2026 "bad" ()).1
      ≠ .returned ("", some (.errorString "authentication failed: invalid_grant")) ∧
    (GetAccessToken envSample netDenied NewTokenManager t2026 t2026 "bad" ()).1
      = .returned ("", some (.wrapError
          "failed to fetch access token: authentication failed: invalid_grant"
          (.errorString "authentication failed: invalid_grant"))) := by
  decide

/-- C9, amended: when `ExpiresAt ≤ now₁` and the exchange fails with the
error `e`, `GetAccessToken` returns the empty token and a new error that
wraps `e`: its message is `failed to fetch access token: ` followed by the
message of `e`, `errors.Unwrap` of it is `e`, and it is not `e` itself. -/
theorem C9_getAccessToken_wraps {σ : Type} (env : Env) (net : Net σ) (tm : TokenManager)
    (now₁ now₂ : Time) (code : String) (w : σ) (e : GoError)
    (hexpired : tm.ExpiresAt ≤ now₁)
    (hex : (ExchangeAccessToken env net code w).1.2 = some e) :
    ∃ e₁ : GoError,
      (GetAccessToken env net tm now₁ now₂ code w).1 = .returned ("", some e₁) ∧
      e₁.Error = "failed to fetch access token: " ++ e.Error ∧
      e₁.Unwrap = some e ∧ e₁ ≠ e := by
  have hnot : ¬ now₁ < tm.ExpiresAt := not_lt.mpr hexpired
  refine ⟨ErrorfW "failed to fetch access token: " e, ?_, rfl, rfl, wrapError_ne _ e⟩
  unfold GetAccessToken
  rcases hx : ExchangeAccessToken env net code w with ⟨⟨token, err⟩, w₁⟩
  rw [hx] at hex
  simp only at hex
  subst hex
  simp [Before, hnot]

/-- C9, amended, on an expired cache and a token endpoint that answers 400. -/
theorem C9_getAccessToken_wraps_witness :
    NewTokenManager.ExpiresAt ≤ t2026 ∧
    ∃ e₁ : GoError,
      (GetAccessToken envSample netDenied NewTokenManager t2026 t2026 "bad" ()).1
        = .returned ("", some e₁) ∧
      e₁.Error = "failed to fetch access token: "
        ++ (GoError.errorString "authentication failed: invalid_grant").Error ∧
      e₁.Unwrap = some (.errorString "authentication failed: invalid_grant") ∧
      e₁ ≠ .errorString "authentication failed: invalid_grant" :=
  ⟨by decide,
   C9_getAccessToken_wraps envSample netDenied NewTokenManager t2026 t2026 "bad" ()
     (.errorString "authentication failed: invalid_grant") (by decide) rfl⟩

end api

/-! ## The callback handler -/

namespace v1

open api

/-- C10, evaluated where it fails: for the non-empty code `bad` and a token
endpoint that answers 400, `ExchangeAccessToken` returns a nil payload with a
non-nil error, and the handler, which reads `token.AccessToken` before it
tests `err`, panics on the nil pointer: it writes no response at all, and in
particular not the 500 response that carries the error message. -/
theorem C10_callback_dereferences_nil :
    "bad" ≠ "" ∧
    (ExchangeAccessToken envSample netDenied "bad" ()).1
      = (none, some (.errorString "authentication failed: invalid_grant")) ∧
    HandleCallback envSample netDenied NewTokenManager t2026 t2026 "bad" ()
      = (.nilDereference, NewTokenManager, ()) ∧
    (HandleCallback envSample netDenied NewTokenManager t2026 t2026 "bad" ()).1
      ≠ .returned [⟨StatusInternalServerError,
          .H [("error", "authentication failed: invalid_grant")]⟩] := by
  decide

end v1

/-! ## The handlers and the validity flag -/

namespace api

/-- Through a recording network, `GetPlayBack` returns what it returns
through the network itself, and the log gains the one request it builds. -/
theorem getPlayBack_recording {σ : Type} (net : Net σ)
    (decode : String → Except GoError PlayBackResponse) (accessToken : String) (w : σ)
    (log : List Request) :
    GetPlayBack (recording net) decode accessToken (w, log)
      = ((GetPlayBack net decode accessToken w).1,
          ((GetPlayBack net decode accessToken w).2, log ++ [playbackRequest accessToken])) := by
  unfold GetPlayBack recording
  simp only
  rcases hrt : net.roundTrip (playbackRequest accessToken) w with ⟨r, w₁⟩
  cases r with
  | newRequestFailed err => rfl
  | doFailed err => rfl
  | response status body =>
    by_cases hn : status = StatusNoContent
    · simp only [hn, if_true]
    · by_cases hs : status = StatusOK
      · simp only [hn, hs, ne_eq, not_true_eq_false, if_false]
        cases decode body <;> rfl
      · simp only [hn, ne_eq, hs, not_false_eq_true, if_true, if_false]

/-- Through a recording network, `GetDevices` returns what it returns through
the network itself, and the log gains the one request it builds. -/
theorem getDevices_recording {σ : Type} (net : Net σ)
    (decode : String → Except GoError DeviceResponse) (accessToken : String) (w : σ)
    (log : List Request) :
    GetDevices (recording net) decode accessToken (w, log)
      = ((GetDevices net decode accessToken w).1,
          ((GetDevices net decode accessToken w).2, log ++ [devicesRequest accessToken])) := by
  unfold GetDevices recording
  simp only
  rcases hrt : net.roundTrip (devicesRequest accessToken) w with ⟨r, w₁⟩
  cases r with
  | newRequestFailed err => rfl
  | doFailed err => rfl
  | response status body =>
    by_cases hs : status = StatusOK
    · simp only [hs, ne_eq, not_true_eq_false, if_false]
      cases decode body <;> rfl
    · simp only [ne_eq, hs, not_false_eq_true, if_true]

/-- A valid `GetToken` returns the cached token, an invalid one nothing. -/
theorem getToken_cases (tm : TokenManager) (now : Time) :
    GetToken tm now = (tm.AccessToken, true) ∨ GetToken tm now = ("", false) := by
  unfold GetToken
  by_cases h : Before now tm.ExpiresAt = true
  · left; simp [h]
  · right; simp [h]

end api

namespace v1

open api

/-- C11, evaluated where it fails. On a fresh manager `GetToken` returns
`("", false)`, yet `SearchHandler`, which drops the flag, sends the search
request with the header `Authorization: Bearer ` (the empty token) and
answers 200 with the result. `HandleCallback` drops the flag too: when the
exchange grants a token with `expires_in` 0, the `GetToken` that follows the
`SetToken` returns `("", false)`, and the profile request goes out with the
empty token. -/
theorem C11_flag_dropped_by_search_and_callback :
    GetToken NewTokenManager t2026 = ("", false) ∧
    SearchHandler (recording netOk) decodeSearchOk NewTokenManager t2026 "hello" ((), [])
      = ([⟨StatusOK, .search (some searchSample)⟩],
          ((), [searchRequest "" "hello" "track" ⟨10, by decide⟩])) ∧
    (searchRequest "" "hello" "track" ⟨10, by decide⟩).Header
      = [("Authorization", "Bearer ")] ∧
    GetToken (SetToken NewTokenManager t2026 "abc123" 0) t2026 = ("", false) ∧
    HandleCallback envSample (recording netZero) NewTokenManager t2026 t2026 "c0de" ((), [])
      = (.returned [⟨StatusOK, .profile (some profileSample)⟩],
          SetToken NewTokenManager t2026 "abc123" 0,
          ((), [tokenRequest envSample "c0de",
                ⟨"GET", "https://api.spotify.com/v1/me", [("Authorization", "Bearer ")], []⟩])) := by
  decide

/-- C12: for `PlayBackHandler` and `DevicesHandler`, on every cache state and
at every clock reading: if `GetToken` reports the token invalid, the handler
writes the single response 401 with the body `error: Invalid token` and sends
no request (the log of the recording network and the world are unchanged); if
it reports the token valid, the handler sends exactly the one request of
`GetPlayBack`, respectively `GetDevices`, built for the cached token. -/
theorem C12_player_handlers_gate {σ : Type} (net : Net σ)
    (decodeP : String → Except GoError PlayBackResponse)
    (decodeD : String → Except GoError DeviceResponse)
    (tm : TokenManager) (now : Time) (w : σ) (log : List Request) :
    ((GetToken tm now).2 = false →
      PlayBackHandler (recording net) decodeP tm now (w, log)
        = ([⟨StatusUnauthorized, .H [("error", "Invalid token")]⟩], (w, log)) ∧
      DevicesHandler (recording net) decodeD tm now (w, log)
        = ([⟨StatusUnauthorized, .H [("error", "Invalid token")]⟩], (w, log))) ∧
    ((GetToken tm now).2 = true →
      (PlayBackHandler (recording net) decodeP tm now (w, log)).2
        = ((GetPlayBack net decodeP tm.AccessToken w).2,
            log ++ [playbackRequest tm.AccessToken]) ∧
      (DevicesHandler (recording net) decodeD tm now (w, log)).2
        = ((GetDevices net decodeD tm.AccessToken w).2,
            log ++ [devicesRequest tm.AccessToken]) ∧
      (playbackRequest tm.AccessToken).Header = [("Authorization", "Bearer " ++ tm.AccessToken)] ∧
      (devicesRequest tm.AccessToken).Header
        = [("Authorization", "Bearer " ++ tm.AccessToken)]) := by
  constructor
  · intro hinv
    rcases getToken_cases tm now with h | h
    · rw [h] at hinv; simp at hinv
    · simp [PlayBackHandler, DevicesHandler, h]
  · intro hval
    rcases getToken_cases tm now with h | h
    · refine ⟨?_, ?_, rfl, rfl⟩
      · unfold PlayBackHandler
        rw [h]
        simp only [Bool.not_true, Bool.false_eq_true, if_false]
        rw [getPlayBack_recording]
        rcases GetPlayBack net decodeP tm.AccessToken w with ⟨⟨results, httpStatus, err⟩, w₁⟩
        cases err <;> simp
      · unfold DevicesHandler
        rw [h]
        simp only [Bool.not_true, Bool.false_eq_true, if_false]
        rw [getDevices_recording]
        rcases GetDevices net decodeD tm.AccessToken w with ⟨⟨result, status, err⟩, w₁⟩
        cases err <;> simp
    · rw [h] at hval; simp at hval

/-- C12 on a fresh manager (invalid) and on a valid cached `abc123`. -/
theorem C12_player_handlers_gate_witness :
    ((GetToken NewTokenManager t2026).2 = false ∧
      PlayBackHandler (recording netOk) decodePlayBackOk NewTokenManager t2026 ((), [])
        = ([⟨StatusUnauthorized, .H [("error", "Invalid token")]⟩], ((), []))) ∧
    ((GetToken ⟨"abc123", t2026 + 5⟩ t2026).2 = true ∧
      (PlayBackHandler (recording netOk) decodePlayBackOk ⟨"abc123", t2026 + 5⟩ t2026
          ((), [])).2
        = ((GetPlayBack netOk decodePlayBackOk "abc123" ()).2,
            [] ++ [playbackRequest "abc123"])) :=
  ⟨⟨by decide,
    ((C12_player_handlers_gate netOk decodePlayBackOk decodeDevicesOk NewTokenManager t2026
        () []).1 (by decide)).1⟩,
   ⟨by decide,
    ((C12_player_handlers_gate netOk decodePlayBackOk decodeDevicesOk ⟨"abc123", t2026 + 5⟩
        t2026 () []).2 (by decide)).1⟩⟩

end v1

/-! ## GetAccessToken against RefreshToken -/

namespace api

/-- What `ExchangeAccessToken` returns is a nil payload with an error, or a
payload with a nil error. -/
theorem exchange_shape {σ : Type} (env : Env) (net : Net σ) (code : String) (w : σ) :
    (∃ e : GoError, (ExchangeAccessToken env net code w).1 = (none, some e)) ∨
    (∃ p : accessPayload, (ExchangeAccessToken env net code w).1 = (some p, none)) := by
  unfold ExchangeAccessToken
  rcases net.roundTrip (tokenRequest env code) w with ⟨r, w₁⟩
  cases r with
  | newRequestFailed err => exact Or.inl ⟨_, rfl⟩
  | doFailed err => exact Or.inl ⟨_, rfl⟩
  | response status body =>
    by_cases hs : status = StatusOK
    · simp only [hs, ne_eq, not_true_eq_false, if_false]
      cases net.decodeAccessPayload body with
      | error err => exact Or.inl ⟨_, rfl⟩
      | ok payload => exact Or.inr ⟨_, rfl⟩
    · simp only [ne_eq, hs, not_false_eq_true, if_true]
      exact Or.inl ⟨_, rfl⟩

/-- C13: for every cache state, clock readings, code and exchange outcome,
`GetAccessToken(code)` returns (it does not panic) a token and an error such
that the token is the one `RefreshToken` returns for the closure that
performs the exchange, the one error is nil exactly when the other is, the
manager and the world after the two calls are the same, and when the error is
not nil the manager is the one before the call. -/
theorem C13_getAccessToken_refines_refresh {σ : Type} (env : Env) (net : Net σ)
    (tm : TokenManager) (now₁ now₂ : Time) (code : String) (w : σ) :
    ∃ (tok : String) (err : Option GoError),
      (GetAccessToken env net tm now₁ now₂ code w).1 = .returned (tok, err) ∧
      (RefreshToken tm now₁ now₂ (exchangeClosure env net code) w).1.1 = tok ∧
      err.isSome = (RefreshToken tm now₁ now₂ (exchangeClosure env net code) w).1.2.isSome ∧
      (GetAccessToken env net tm now₁ now₂ code w).2
        = (RefreshToken tm now₁ now₂ (exchangeClosure env net code) w).2 ∧
      (err.isSome = true → (GetAccessToken env net tm now₁ now₂ code w).2.1 = tm) := by
  unfold GetAccessToken RefreshToken exchangeClosure
  by_cases hv : Before now₁ tm.ExpiresAt = true
  · exact ⟨tm.AccessToken, none, by simp [hv]⟩
  · rcases hx : ExchangeAccessToken env net code w with ⟨⟨token, err⟩, w₁⟩
    have hshape := exchange_shape env net code w
    rw [hx] at hshape
    rcases hshape with ⟨e, he⟩ | ⟨p, hp⟩
    · simp only [Prod.mk.injEq] at he
      obtain ⟨rfl, rfl⟩ := he
      exact ⟨"", some (ErrorfW "failed to fetch access token: " e), by simp [hv]⟩
    · simp only [Prod.mk.injEq] at hp
      obtain ⟨rfl, rfl⟩ := hp
      exact ⟨p.AccessToken, none, by simp [hv]⟩

/-! ## The scenario, SetToken and the fresh manager -/

/-- C14: on a fresh manager, after `SetToken("abc123", 3600)` at `t0`,
`GetToken` at `t0` returns `("abc123", true)` and `GetToken` 3601 seconds
later returns `("", false)`; `RefreshToken` at that reading with a closure
that returns `("xyz789", 3600, nil)` returns `("xyz789", nil)`; and a
`GetToken` that follows, at a reading less than 3600 seconds after the one of
the store, returns `("xyz789", true)`. -/
theorem C14_scenario {σ : Type} (t0 now₂ t3 : Time) (f : RefreshFunc σ) (w : σ)
    (hf : (f w).1 = ("xyz789", 3600, none)) (h3 : t3 < now₂ + 3600 * 1000000000) :
    GetToken (SetToken NewTokenManager t0 "abc123" 3600) t0 = ("abc123", true) ∧
    GetToken (SetToken NewTokenManager t0 "abc123" 3600) (t0 + 3601 * 1000000000)
      = ("", false) ∧
    (RefreshToken (SetToken NewTokenManager t0 "abc123" 3600) (t0 + 3601 * 1000000000) now₂
      f w).1 = ("xyz789", none) ∧
    GetToken (RefreshToken (SetToken NewTokenManager t0 "abc123" 3600)
      (t0 + 3601 * 1000000000) now₂ f w).2.1 t3 = ("xyz789", true) := by
  have hd : secondsDuration 3600 = 3600 * 1000000000 :=
    secondsDuration_exact 3600 (by decide) (by decide)
  have hexp : ¬ (t0 + 3601 * 1000000000 < t0 + 3600 * 1000000000) := by
    intro hlt
    linarith
  have h3n : t3 < now₂ + 3600000000000 := by linarith
  rcases hfw : f w with ⟨⟨t₁, L₁, e₁⟩, w₁⟩
  rw [hfw] at hf
  simp only [Prod.mk.injEq] at hf
  obtain ⟨rfl, rfl, rfl⟩ := hf
  refine ⟨?_, ?_, ?_, ?_⟩
  · simp [GetToken, SetToken, Before, Add, hd]
  · simp only [GetToken, SetToken, Before, Add, hd]
    simp [hexp]
  · simp only [RefreshToken, SetToken, Before, Add, hd, hfw]
    simp [hexp]
  · simp only [RefreshToken, SetToken, Before, Add, hd, hfw, GetToken]
    simp [hexp, h3n]

/-- C14 in the year 2026, the refresh and the last read at the same reading. -/
theorem C14_scenario_witness :
    (refreshOk ()).1 = ("xyz789", 3600, none) ∧
    GetToken (SetToken NewTokenManager t2026 "abc123" 3600) t2026 = ("abc123", true) ∧
    GetToken (SetToken NewTokenManager t2026 "abc123" 3600) (t2026 + 3601 * 1000000000)
      = ("", false) ∧
    (RefreshToken (SetToken NewTokenManager t2026 "abc123" 3600) (t2026 + 3601 * 1000000000)
      (t2026 + 3601 * 1000000000) refreshOk ()).1 = ("xyz789", none) ∧
    GetToken (RefreshToken (SetToken NewTokenManager t2026 "abc123" 3600)
      (t2026 + 3601 * 1000000000) (t2026 + 3601 * 1000000000) refreshOk ()).2.1
      (t2026 + 3601 * 1000000000) = ("xyz789", true) :=
  ⟨rfl, C14_scenario t2026 (t2026 + 3601 * 1000000000) (t2026 + 3601 * 1000000000) refreshOk ()
    rfl (by decide)⟩

/-- The reduced value is never below the smallest `int64`. -/
theorem wrapInt64_ge_min (x : Int) : -9223372036854775808 ≤ wrapInt64 x := by
  unfold wrapInt64
  have h : 0 ≤ (x + 2 ^ 63) % 2 ^ 64 := Int.emod_nonneg _ (by norm_num)
  omega

/-- The conversion of a lifetime to nanoseconds is exact for the lifetimes of
at most 9223372036 seconds in absolute value, and for no other. -/
theorem secondsDuration_exact_iff (n : Int) :
    secondsDuration n = n * 1000000000 ↔ -9223372036 ≤ n ∧ n ≤ 9223372036 := by
  constructor
  · intro h
    have h₁ : (-9223372036854775808 : Int) ≤ n * 1000000000 := by
      rw [← h]
      exact wrapInt64_ge_min _
    have h₂ : n * 1000000000 ≤ (9223372036854775807 : Int) := by
      rw [← h]
      exact wrapInt64_le_max _
    constructor <;> omega
  · intro h
    exact secondsDuration_exact n h.1 h.2

/-- C15, as stated, fails: 9223372037 lies in the range of a 64-bit `int`,
and for it the duration `SetToken` computes is not 9223372037 × 10^9
nanoseconds but that number reduced by 2^64, so the stored expiry is not the
clock reading plus 9223372037 seconds. -/
theorem C15_fails_on_overflow :
    (-9223372036854775808 : Int) ≤ 9223372037 ∧ (9223372037 : Int) ≤ 9223372036854775807 ∧
    secondsDuration 9223372037 ≠ 9223372037 * 1000000000 ∧
    secondsDuration 9223372037 = 9223372037 * 1000000000 - 18446744073709551616 ∧
    SetToken ⟨"old", 7⟩ t2026 "abc123" 9223372037
      ≠ ⟨"abc123", t2026 + 9223372037 * 1000000000⟩ := by
  decide

/-- C15, amended: for every token, every lifetime `L` with
`-9223372036 ≤ L ≤ 9223372036` and every clock reading, `SetToken` leaves the
cache equal to the token and the reading plus `L` seconds, whatever it held
before, and the duration it computes is `L × 10^9` nanoseconds. -/
theorem C15_setToken_overwrites (tm : TokenManager) (now : Time) (token : String) (L : Int)
    (hlo : -9223372036 ≤ L) (hhi : L ≤ 9223372036) :
    SetToken tm now token L = ⟨token, now + L * 1000000000⟩ ∧
    secondsDuration L = L * 1000000000 := by
  have hd := secondsDuration_exact L hlo hhi
  exact ⟨by simp [SetToken, Add, hd], hd⟩

/-- C15, amended, on a one-hour token written over an older cache. -/
theorem C15_setToken_overwrites_witness :
    SetToken ⟨"old", 7⟩ t2026 "abc123" 3600 = ⟨"abc123", t2026 + 3600 * 1000000000⟩ ∧
    secondsDuration 3600 = 3600 * 1000000000 :=
  C15_setToken_overwrites ⟨"old", 7⟩ t2026 "abc123" 3600 (by decide) (by decide)

/-- C16: the manager built by `NewTokenManager` holds the empty token, and
`GetToken` on it returns `("", false)` at every clock reading, a clock
reading being an instant not before Go's zero time (the expiry of the fresh
manager is the zero time). -/
theorem C16_fresh_manager_unset (now : Time) (hnow : 0 ≤ now) :
    NewTokenManager.AccessToken = "" ∧ GetToken NewTokenManager now = ("", false) := by
  have h : ¬ now < 0 := not_lt.mpr hnow
  exact ⟨rfl, by simp [GetToken, NewTokenManager, Before, h]⟩

/-- C16 in the year 2026. -/
theorem C16_fresh_manager_unset_witness :
    (0 : Time) ≤ t2026 ∧
    NewTokenManager.AccessToken = "" ∧ GetToken NewTokenManager t2026 = ("", false) :=
  ⟨by decide, C16_fresh_manager_unset t2026 (by decide)⟩

end api

/-! ## The responses of the command handlers -/

namespace v1

open api

/-- C18, evaluated where it fails: with a valid cached token, a well-formed
body and an upstream that answers 403, `PausePlayback` returns the status 403
with an error, and `PausePlaybackHandler` writes two responses, the error and
then the success body `status: Playback paused`; on the same request
`SkipNextHandler`, whose error branch returns, writes the error alone. -/
theorem C18_pause_handler_writes_twice :
    GetToken ⟨"abc123", t2026 + 5⟩ t2026 = ("abc123", true) ∧
    (PausePlayback netForbidden "abc123" "" ()).1
      = (403, some (.errorString "failed to pause playback: Premium required")) ∧
    PausePlaybackHandler netForbidden ⟨"abc123", t2026 + 5⟩ t2026 (.ok "") ()
      = ([⟨403, .H [("error", "failed to pause playback: Premium required")]⟩,
          ⟨403, .H [("status", "Playback paused")]⟩], ()) ∧
    SkipNextHandler netForbidden ⟨"abc123", t2026 + 5⟩ t2026 (.ok "") ()
      = ([⟨403, .H [("error", "failed to skip to the next track: Premium required")]⟩], ()) := by
  decide

end v1

/-! ## Lifetimes that are not positive -/

namespace api

/-- C19, as stated, fails: on an expired cache, a closure that returns the
lifetime -9223372037 with a nil error has its token stored and returned, and
the `GetToken` at the reading of the store returns that token as valid (the
nanosecond count of the lifetime wraps to some 292 years). -/
theorem C19_fails_on_overflow :
    ¬ (t2026 < (TokenManager.mk "abc123" t2026).ExpiresAt) ∧
    (refreshNegative ()).1 = ("xyz789", -9223372037, none) ∧
    (-9223372037 : Int) ≤ 0 ∧ (-9223372036854775808 : Int) ≤ -9223372037 ∧
    (RefreshToken ⟨"abc123", t2026⟩ t2026 (t2026 + 1) refreshNegative ()).1
      = ("xyz789", none) ∧
    GetToken (RefreshToken ⟨"abc123", t2026⟩ t2026 (t2026 + 1) refreshNegative ()).2.1
      (t2026 + 1) = ("xyz789", true) := by
  decide

/-- C19, amended: on every cache state with `ExpiresAt ≤ now₁` and for every
closure that returns `(t, L, nil)` with `-9223372036 ≤ L ≤ 0`, `RefreshToken`
returns `(t, nil)` and stores `t`, and `GetToken` at the reading `now₂` of
the store or at any later one returns `("", false)`. -/
theorem C19_refresh_nonpositive_lifetime {σ : Type} (tm : TokenManager) (now₁ now₂ : Time)
    (f : RefreshFunc σ) (w : σ) (t : String) (L : Int)
    (hexpired : tm.ExpiresAt ≤ now₁) (hf : (f w).1 = (t, L, none))
    (hlo : -9223372036 ≤ L) (hnonpos : L ≤ 0) :
    (RefreshToken tm now₁ now₂ f w).1 = (t, none) ∧
    (RefreshToken tm now₁ now₂ f w).2.1.AccessToken = t ∧
    ∀ later : Time, now₂ ≤ later →
      GetToken (RefreshToken tm now₁ now₂ f w).2.1 later = ("", false) := by
  have hnot : ¬ now₁ < tm.ExpiresAt := not_lt.mpr hexpired
  have hd : secondsDuration L = L * 1000000000 := secondsDuration_exact L hlo (by omega)
  rcases hfw : f w with ⟨⟨t₁, L₁, e₁⟩, w₁⟩
  rw [hfw] at hf
  simp only [Prod.mk.injEq] at hf
  obtain ⟨rfl, rfl, rfl⟩ := hf
  refine ⟨?_, ?_, ?_⟩
  · simp [RefreshToken, Before, hnot, hfw]
  · simp [RefreshToken, Before, hnot, hfw]
  · intro later hlater
    have hle : L₁ * 1000000000 ≤ 0 := by omega
    have hgone : ¬ later < now₂ + L₁ * 1000000000 := by
      intro hlt
      linarith
    simp only [RefreshToken, Before, hnot, hfw, Add, hd, GetToken]
    simp [hgone]

/-- C19, amended, on an expired cache and a closure that grants zero
seconds. -/
theorem C19_refresh_nonpositive_lifetime_witness :
    (TokenManager.mk "abc123" t2026).ExpiresAt ≤ t2026 + 1 ∧
    (refreshZero ()).1 = ("xyz789", 0, none) ∧
    (RefreshToken ⟨"abc123", t2026⟩ (t2026 + 1) (t2026 + 2) refreshZero ()).1
      = ("xyz789", none) ∧
    (RefreshToken ⟨"abc123", t2026⟩ (t2026 + 1) (t2026 + 2) refreshZero ()).2.1.AccessToken
      = "xyz789" ∧
    GetToken (RefreshToken ⟨"abc123", t2026⟩ (t2026 + 1) (t2026 + 2) refreshZero ()).2.1
      (t2026 + 2) = ("", false) :=
  ⟨by decide, rfl,
   (C19_refresh_nonpositive_lifetime ⟨"abc123", t2026⟩ (t2026 + 1) (t2026 + 2) refreshZero ()
      "xyz789" 0 (by decide) rfl (by decide) (by decide)).1,
   (C19_refresh_nonpositive_lifetime ⟨"abc123", t2026⟩ (t2026 + 1) (t2026 + 2) refreshZero ()
      "xyz789" 0 (by decide) rfl (by decide) (by decide)).2.1,
   (C19_refresh_nonpositive_lifetime ⟨"abc123", t2026⟩ (t2026 + 1) (t2026 + 2) refreshZero ()
      "xyz789" 0 (by decide) rfl (by decide) (by decide)).2.2 (t2026 + 2) (by decide)⟩

end api
